import Mathlib

/-! Verification model of the triage/execute/verify stage-cache backend:
`store.py` (sqlite record store), `devin_client.py` (session client with a
rate-limit retry loop) and the route handlers in `main.py`. External
collaborators (the issue tracker, the remote session service, the clock) are
passed in as explicit parameters; session-creation calls and sleeps are
instrumented so that "no remote call is made" becomes a provable statement. -/

/-- JSON values as handled by `json.loads` / `json.dumps`. -/
inductive Json where
  | null
  | bool (b : Bool)
  | num (n : Int)
  | str (s : String)
  | arr (elems : List Json)
  | obj (fields : List (String × Json))

/-- Python truthiness of a JSON value (`if x:`). -/
def Json.truthy : Json → Bool
  | .null => false
  | .bool b => b
  | .num n => n != 0
  | .str s => !s.isEmpty
  | .arr es => !es.isEmpty
  | .obj fs => !fs.isEmpty

/-- A decoded JSON dictionary (a Python `dict` with string keys). -/
abbrev Dict := List (String × Json)

/-- Python `dict.get(key)`; dict keys are unique, the first binding wins. -/
def dictGet : Dict → String → Option Json
  | [], _ => none
  | (k, v) :: rest, key => if k = key then some v else dictGet rest key

/-- Python `.get(key)` on a JSON value that is a dictionary. -/
def Json.get : Json → String → Option Json
  | .obj fs, key => dictGet fs key
  | _, _ => none

/-- Truthiness of a Python optional value (`None` is falsy). -/
def optTruthy : Option Json → Bool
  | none => false
  | some j => j.truthy

/-- Python `a or b` on optional JSON values. -/
def pyOr (a b : Option Json) : Option Json :=
  if optTruthy a then a else b

/-- Python `x or \x7b\x7d`: replace a falsy or absent value by the empty dict. -/
def pyOrEmptyObj (a : Option Json) : Json :=
  match a with
  | some j => if j.truthy then j else .obj []
  | none => .obj []

/-- Composition of `json.dumps(x) if x else None` on write with the symmetric
`json.loads(col) if col else None` on read: a falsy value (`None` or an empty
dict) is persisted as SQL NULL and reads back as `None`. -/
def dumpsIfTruthy (x : Option Json) : Option Json :=
  if optTruthy x then x else none

/-- Value of an `Except` when it succeeded. -/
def exceptValue {ε α : Type} : Except ε α → Option α
  | .ok a => some a
  | .error _ => none

/-- Row of `triage_runs` as `store.get_triage` returns it (store.py). -/
structure TriageRecord where
  issue_number : Int
  created_at : Int
  session_id : String
  session_url : Option String
  structured_output : Option Json
  session : Option Json

/-- Row of `exec_runs` as `store.get_exec` returns it (store.py). -/
structure ExecRecord where
  issue_number : Int
  created_at : Int
  session_id : String
  session_url : Option String
  structured_output : Option Json
  pull_request_url : Option Json
  session : Option Json

/-- Row of the verify table, shaped like the triage row (spec §3). -/
structure VerifyRecord where
  issue_number : Int
  created_at : Int
  session_id : String
  session_url : Option String
  structured_output : Option Json
  session : Option Json

/-- SELECT by primary key. -/
def alistGet {α : Type} : List (Int × α) → Int → Option α
  | [], _ => none
  | (k, v) :: rest, key => if k = key then some v else alistGet rest key

/-- INSERT .. ON CONFLICT(key) DO UPDATE: replace the conflicting row in place,
or append a new one. -/
def alistUpsert {α : Type} : List (Int × α) → Int → α → List (Int × α)
  | [], k, v => [(k, v)]
  | (k', v') :: rest, k, v =>
      if k' = k then (k, v) :: rest else (k', v') :: alistUpsert rest k v

/-- DELETE by primary key. -/
def alistDelete {α : Type} (t : List (Int × α)) (k : Int) : List (Int × α) :=
  t.filter (fun p => decide (p.1 ≠ k))

/-- Whether DELETE by primary key would report `rowcount > 0`. -/
def alistHas {α : Type} : List (Int × α) → Int → Bool
  | [], _ => false
  | (k', _) :: rest, k => if k' = k then true else alistHas rest k

/-- The persistent database. `triage_runs` and `exec_runs` are created by
`store.init_db`; `verify_runs` is the verify-stage table the spec requires
(§3, §6) but `store.py` never creates — see `store_verify_missing`. -/
structure DB where
  triage_runs : List (Int × TriageRecord)
  exec_runs : List (Int × ExecRecord)
  verify_runs : List (Int × VerifyRecord)

/-- Function `store.get_triage`. -/
def get_triage (db : DB) (issue_number : Int) : Option TriageRecord :=
  alistGet db.triage_runs issue_number

/-- Function `store.upsert_triage`; `created_at` is set to the write time on
every upsert, and falsy `structured_output` / `session` are stored as NULL. -/
def upsert_triage (db : DB) (now : Int) (issue_number : Int) (session_id : String)
    (session_url : Option String) (structured_output : Option Json)
    (session : Option Json) : DB :=
  let row : TriageRecord := ⟨issue_number, now, session_id, session_url,
    dumpsIfTruthy structured_output, dumpsIfTruthy session⟩
  { db with triage_runs := alistUpsert db.triage_runs issue_number row }

/-- Function `store.get_exec`. -/
def get_exec (db : DB) (issue_number : Int) : Option ExecRecord :=
  alistGet db.exec_runs issue_number

/-- Function `store.upsert_exec`; `pull_request_url` is stored exactly as
passed, with no falsy-to-NULL collapse. -/
def upsert_exec (db : DB) (now : Int) (issue_number : Int) (session_id : String)
    (session_url : Option String) (structured_output : Option Json)
    (pull_request_url : Option Json) (session : Option Json) : DB :=
  let row : ExecRecord := ⟨issue_number, now, session_id, session_url,
    dumpsIfTruthy structured_output, pull_request_url, dumpsIfTruthy session⟩
  { db with exec_runs := alistUpsert db.exec_runs issue_number row }

/-- Modelled from the spec: `store.py` under `src/` defines no `get_verify`
(main.py line 7 imports and calls it, so the definition is missing code of this
repository); spec §3, §4.1 and §6 give the verify stage a triage-shaped table
keyed by issue number with the same get contract. -/
def get_verify (db : DB) (issue_number : Int) : Option VerifyRecord :=
  alistGet db.verify_runs issue_number

/-- Modelled from the spec: `store.py` under `src/` defines no `upsert_verify`
(main.py imports and calls it); per spec §4.1 the upsert atomically replaces all
non-key columns, with `created_at` the write time and `structured_output` /
`session` serialized as opaque JSON like the triage and exec stores. -/
def upsert_verify (db : DB) (now : Int) (issue_number : Int) (session_id : String)
    (session_url : Option String) (structured_output : Option Json)
    (session : Option Json) : DB :=
  let row : VerifyRecord := ⟨issue_number, now, session_id, session_url,
    dumpsIfTruthy structured_output, dumpsIfTruthy session⟩
  { db with verify_runs := alistUpsert db.verify_runs issue_number row }

/-- Function `main.delete_triage`: DELETE plus `rowcount > 0`. -/
def delete_triage (db : DB) (number : Int) : DB × Bool :=
  ({ db with triage_runs := alistDelete db.triage_runs number },
   alistHas db.triage_runs number)

/-- Function `main.delete_exec`. -/
def delete_exec (db : DB) (number : Int) : DB × Bool :=
  ({ db with exec_runs := alistDelete db.exec_runs number },
   alistHas db.exec_runs number)

/-- Function `main.delete_verify` (it targets the `verify_runs` table). -/
def delete_verify (db : DB) (number : Int) : DB × Bool :=
  ({ db with verify_runs := alistDelete db.verify_runs number },
   alistHas db.verify_runs number)

/-- Tables created by `store.init_db` (store.py lines 14-36). -/
def init_db_tables : List String := ["triage_runs", "exec_runs"]

/-- Module-level names defined by `store.py`. -/
def store_module_defs : List String :=
  ["DB_PATH", "_conn", "init_db", "get_triage", "upsert_triage", "get_exec", "upsert_exec"]

/-- Names `main.py` (line 7) imports from the `store` module. -/
def main_store_imports : List String :=
  ["init_db", "get_triage", "upsert_triage", "get_exec", "upsert_exec",
   "get_verify", "upsert_verify", "DB_PATH"]

/-- One HTTP response of the remote session service, per attempt. -/
structure HttpResp where
  status : Nat
  retryAfter : Option String
  body : Json

/-- Decimal value of an all-digit string, as Python `int(...)` computes it. -/
def digitsToNat (cs : List Char) : Nat :=
  cs.foldl (fun acc c => acc * 10 + (c.toNat - 48)) 0

/-- The header parse `int(retry_after) if (retry_after and retry_after.isdigit())
else None` in `devin_client.create_session`. -/
def parseRetryAfter : Option String → Option Nat
  | none => none
  | some s =>
      if !s.isEmpty && s.data.all Char.isDigit then some (digitsToNat s.data)
      else none

/-- Outcome of `devin_client.create_session`. -/
inductive CreateResult where
  | ok (body : Json)
  | rateLimited (retry_after_s : Nat)
  | apiError (status : Nat)
  | unexpected

/-- A run of `create_session`, instrumented with the sleeps performed (in
order, in seconds) and the number of HTTP attempts made. -/
structure CreateRun where
  result : CreateResult
  sleeps : List Nat
  attempts : Nat

/-- The `for attempt in range(1, 4)` retry loop of `devin_client.create_session`
(lines 27-50): on 429 honor a digit `Retry-After` header, else back off
`2 ^ attempt` seconds; on the third attempt raise instead of sleeping; any
other status ≥ 400 fails immediately, and a success returns the body. -/
def createGo (resp : Nat → HttpResp) : List Nat → List Nat → Nat → CreateRun
  | [], sleeps, att => ⟨.unexpected, sleeps, att⟩
  | attempt :: rest, sleeps, att =>
      let r := resp (attempt - 1)
      if r.status == 429 then
        let retry_after_s := parseRetryAfter r.retryAfter
        let sleep_s := retry_after_s.getD (2 ^ attempt)
        if attempt == 3 then ⟨.rateLimited sleep_s, sleeps, att + 1⟩
        else createGo resp rest (sleeps ++ [sleep_s]) (att + 1)
      else if r.status ≥ 400 then ⟨.apiError r.status, sleeps, att + 1⟩
      else ⟨.ok r.body, sleeps, att + 1⟩

/-- Function `devin_client.create_session`, with the remote's answer to the
i-th attempt given by `resp i`. -/
def create_session (resp : Nat → HttpResp) : CreateRun :=
  createGo resp [1, 2, 3] [] 0

/-- Outcome of one `create_session` call as seen by a route handler. -/
inductive SessionStart where
  | ok (session_id : String) (url : Option String)
  | rateLimited (retry_after_s : Nat)
  | remoteError (status : Nat)

/-- Errors a route handler surfaces. `unhandled` is an exception that escapes
to the generic 500 handler. -/
inductive ApiError where
  | http (status : Nat) (detail : String)
  | rateLimited429 (retry_after_s : Nat)
  | unhandled

/-- The placeholder snapshot `status_enum: working` stored at stage start. -/
def workingSession : Json := .obj [("status_enum", .str "working")]

/-- Response of `main.triage_issue` (the merge of `cached` with the record). -/
structure TriageResponse where
  cached : Bool
  record : TriageRecord

/-- The fresh-run tail of `main.triage_issue`: create a session (a caught
rate limit becomes a 429; other remote failures escape), persist the initial
record with empty structured output, and return it tagged not-cached. The
third component counts session-creation calls. -/
def triageFresh (now : Int) (start : SessionStart) (db : DB) (number : Int) :
    Except ApiError TriageResponse × DB × Nat :=
  match start with
  | .rateLimited r => (.error (.rateLimited429 r), db, 1)
  | .remoteError _ => (.error .unhandled, db, 1)
  | .ok session_id url =>
      let db1 := upsert_triage db now number session_id url (some (.obj [])) (some workingSession)
      match get_triage db1 number with
      | some saved => (.ok ⟨false, saved⟩, db1, 1)
      | none => (.error .unhandled, db1, 1)

/-- Function `main.triage_issue` (route POST /issues/N/triage). -/
def triage_issue (now : Int) (start : SessionStart) (db : DB) (number : Int)
    (force : Bool) : Except ApiError TriageResponse × DB × Nat :=
  match get_triage db number with
  | some existing =>
      if !force && optTruthy existing.structured_output then
        (.ok ⟨true, existing⟩, db, 0)
      else triageFresh now start db number
  | none => triageFresh now start db number

/-- Response of `main.execute_issue`. -/
structure ExecResponse where
  cached : Bool
  record : ExecRecord

/-- Side effects of one `main.execute_issue` call: how many internal triage
runs it made, and how many triage / execute session creations happened. -/
structure ExecEffects where
  internalTriageRuns : Nat
  triageCreates : Nat
  execCreates : Nat
deriving DecidableEq, Repr

/-- Detail string of the execute precondition failure (main.py line 359). -/
def noTriageMsg : String :=
  "No triage found for this issue. Run POST /issues/\x7bnumber\x7d/triage first."

/-- Triage structured output as `main.execute_issue` reads it from the store. -/
def triageSO (db : DB) (number : Int) : Option Json :=
  match get_triage db number with
  | some r => r.structured_output
  | none => none

/-- The part of `main.execute_issue` after the cache check: the triage
dependency with its internal fallback run, then session creation (uncaught on
failure) and the initial upsert with empty structured output and an empty
string PR URL. -/
def executeFresh (now : Int) (ts es : SessionStart) (db : DB) (number : Int) :
    Except ApiError ExecResponse × DB × ExecEffects :=
  let triage := triageSO db number
  let step : Except ApiError (Option Json) × DB × Nat × Nat :=
    if optTruthy triage then (.ok triage, db, 0, 0)
    else
      match triage_issue now ts db number false with
      | (.ok resp, db1, c) => (.ok resp.record.structured_output, db1, 1, c)
      | (.error e, db1, c) => (.error e, db1, 1, c)
  match step with
  | (.error e, db1, tr, tc) => (.error e, db1, ⟨tr, tc, 0⟩)
  | (.ok triage2, db1, tr, tc) =>
      if !optTruthy triage2 then (.error (.http 400 noTriageMsg), db1, ⟨tr, tc, 0⟩)
      else
        match es with
        | .rateLimited _ => (.error .unhandled, db1, ⟨tr, tc, 1⟩)
        | .remoteError _ => (.error .unhandled, db1, ⟨tr, tc, 1⟩)
        | .ok session_id url =>
            let db2 := upsert_exec db1 now number session_id url (some (.obj []))
                        (some (.str "")) (some workingSession)
            match get_exec db2 number with
            | some saved => (.ok ⟨false, saved⟩, db2, ⟨tr, tc, 1⟩)
            | none => (.error .unhandled, db2, ⟨tr, tc, 1⟩)

/-- Function `main.execute_issue` (route POST /issues/N/execute): cache hit
when not forced and a PR URL is present either as the stored column or under
the `pull_request_url` key of the stored structured output. -/
def execute_issue (now : Int) (ts es : SessionStart) (db : DB) (number : Int)
    (force : Bool) : Except ApiError ExecResponse × DB × ExecEffects :=
  match get_exec db number with
  | some existing =>
      if !force && optTruthy (pyOr existing.pull_request_url
          ((pyOrEmptyObj existing.structured_output).get "pull_request_url")) then
        (.ok ⟨true, existing⟩, db, ⟨0, 0, 0⟩)
      else executeFresh now ts es db number
  | none => executeFresh now ts es db number

/-- Response of `main.verify_pr`. -/
structure VerifyResponse where
  cached : Bool
  record : VerifyRecord

/-- The non-cached tail of `main.verify_pr`: requires an execute record with a
truthy `pull_request_url`, then creates a session (rate limit caught as 429)
and persists the initial verify record. -/
def verifyFresh (now : Int) (start : SessionStart) (db : DB) (number : Int) :
    Except ApiError VerifyResponse × DB × Nat :=
  match get_exec db number with
  | none => (.error (.http 400 "No execution record found. Run Execute first."), db, 0)
  | some exec_record =>
      if !optTruthy exec_record.pull_request_url then
        (.error (.http 400 "No PR found. Complete execution first."), db, 0)
      else
        match start with
        | .rateLimited r => (.error (.rateLimited429 r), db, 1)
        | .remoteError _ => (.error .unhandled, db, 1)
        | .ok session_id url =>
            let db1 := upsert_verify db now number session_id url (some (.obj []))
                        (some workingSession)
            match get_verify db1 number with
            | some saved => (.ok ⟨false, saved⟩, db1, 1)
            | none => (.error .unhandled, db1, 1)

/-- Function `main.verify_pr` (route POST /issues/N/verify): any existing
verify record is a cache hit when not forced. -/
def verify_pr (now : Int) (start : SessionStart) (db : DB) (number : Int)
    (force : Bool) : Except ApiError VerifyResponse × DB × Nat :=
  match get_verify db number with
  | some existing =>
      if !force then (.ok ⟨true, existing⟩, db, 0)
      else verifyFresh now start db number
  | none => verifyFresh now start db number

/-- Function `main.sync_exec_with_session` (route POST /issues/N/sync-exec);
the snapshot the remote returns for a session id is `fetch id`. -/
def sync_exec_with_session (now : Int) (fetch : String → Dict) (db : DB)
    (number : Int) : Except ApiError ExecRecord × DB :=
  match get_exec db number with
  | none => (.error (.http 404 "No execution record found"), db)
  | some rec =>
      if rec.session_id = "" then
        (.error (.http 400 "No session_id in execution record"), db)
      else
        let session := fetch rec.session_id
        let pr_url0 : Option Json :=
          match dictGet session "pull_request" with
          | some (.obj fs) => dictGet fs "url"
          | _ => none
        let structured_output := pyOrEmptyObj (dictGet session "structured_output")
        let pr_url := if optTruthy pr_url0 then pr_url0
                      else structured_output.get "pull_request_url"
        let db1 := upsert_exec db now number rec.session_id rec.session_url
                    (some structured_output) pr_url (some (.obj session))
        match get_exec db1 number with
        | some r => (.ok r, db1)
        | none => (.error .unhandled, db1)

/-- Function `main.sync_triage_with_session` (route POST /issues/N/sync-triage). -/
def sync_triage_with_session (now : Int) (fetch : String → Dict) (db : DB)
    (number : Int) : Except ApiError TriageRecord × DB :=
  match get_triage db number with
  | none => (.error (.http 404 "No triage record found"), db)
  | some rec =>
      if rec.session_id = "" then
        (.error (.http 400 "No session_id in triage record"), db)
      else
        let session := fetch rec.session_id
        let structured_output := pyOrEmptyObj (dictGet session "structured_output")
        let db1 := upsert_triage db now number rec.session_id rec.session_url
                    (some structured_output) (some (.obj session))
        match get_triage db1 number with
        | some r => (.ok r, db1)
        | none => (.error .unhandled, db1)

/-- Function `main.sync_verify_with_session` (route POST /issues/N/sync-verify). -/
def sync_verify_with_session (now : Int) (fetch : String → Dict) (db : DB)
    (number : Int) : Except ApiError VerifyRecord × DB :=
  match get_verify db number with
  | none => (.error (.http 404 "No verify record found"), db)
  | some rec =>
      if rec.session_id = "" then
        (.error (.http 400 "No session_id in verify record"), db)
      else
        let session := fetch rec.session_id
        let structured_output := pyOrEmptyObj (dictGet session "structured_output")
        let db1 := upsert_verify db now number rec.session_id rec.session_url
                    (some structured_output) (some (.obj session))
        match get_verify db1 number with
        | some r => (.ok r, db1)
        | none => (.error .unhandled, db1)

/-- The per-stage booleans `main.clear_issue_cache` reports. -/
structure ClearedFlags where
  triage : Bool
  execute : Bool
  verify : Bool
deriving DecidableEq, Repr

/-- Function `main.clear_issue_cache` (route DELETE /issues/N/cache): pop the
in-memory dicts when the key is present, then best-effort delete the three
persisted rows, or-ing each delete result into the per-stage flag. -/
def clear_issue_cache (memTriage memExec : List Int) (db : DB) (number : Int) :
    ClearedFlags × (List Int × List Int) × DB :=
  let t0 := memTriage.contains number
  let memT := if t0 then memTriage.filter (fun k => decide (k ≠ number)) else memTriage
  let e0 := memExec.contains number
  let memE := if e0 then memExec.filter (fun k => decide (k ≠ number)) else memExec
  let p1 := delete_triage db number
  let p2 := delete_exec p1.1 number
  let p3 := delete_verify p2.1 number
  (⟨p1.2 || t0, p2.2 || e0, p3.2 || false⟩, (memT, memE), p3.1)

/-- The pull-request URL Sync-Execute derives from a fresh snapshot alone: the
url field of the snapshot's pull_request object if that is a truthy value,
else the pull_request_url key inside the snapshot's structured output, else
None. -/
def prFromSnapshot (s : Dict) : Option Json :=
  let fromPr : Option Json :=
    match dictGet s "pull_request" with
    | some (.obj fs) => dictGet fs "url"
    | _ => none
  if optTruthy fromPr then fromPr
  else (pyOrEmptyObj (dictGet s "structured_output")).get "pull_request_url"

/-- Verify store with one record whose session never completed (absent
structured output). -/
def verifyDB0 : DB := ⟨[], [], [(3, ⟨3, 0, "v3", none, none, none⟩)]⟩

/-- Execute store holding a cached pull-request URL, with no triage record. -/
def dbExecCached : DB :=
  ⟨[], [(7, ⟨7, 0, "e7", none, none, some (.str "https://example.test/pull/1"), none⟩)], []⟩

/-- A remote whose snapshots are always the empty dict. -/
def syncFetch0 : String → Dict := fun _ => []

/-- Execute store with a single bare record for issue 1. -/
def syncDB0 : DB := ⟨[], [(1, ⟨1, 0, "s1", none, none, none, none⟩)], []⟩

/-- Triage store with a single bare record for issue 2. -/
def triageDB0 : DB := ⟨[(2, ⟨2, 0, "t2", none, none, none⟩)], [], []⟩

/-- Execute store whose record for issue 4 already carries a pull-request URL. -/
def prDB0 : DB :=
  ⟨[], [(4, ⟨4, 0, "e4", none, none, some (.str "https://old.example/pull/9"), none⟩)], []⟩

theorem alistGet_upsert {α : Type} (t : List (Int × α)) (k : Int) (v : α) :
    alistGet (alistUpsert t k v) k = some v := by
  induction t with
  | nil => simp [alistUpsert, alistGet]
  | cons p rest ih =>
      obtain ⟨k', v'⟩ := p
      by_cases h : k' = k
      · simp [alistUpsert, alistGet, h]
      · simp [alistUpsert, alistGet, h, ih]

theorem alistGet_delete {α : Type} (t : List (Int × α)) (k : Int) :
    alistGet (alistDelete t k) k = none := by
  induction t with
  | nil => rfl
  | cons p rest ih =>
      obtain ⟨k', v'⟩ := p
      by_cases h : k' = k
      · simpa [alistDelete, h] using ih
      · simpa [alistDelete, alistGet, h] using ih

theorem alistHas_eq_isSome {α : Type} (t : List (Int × α)) (k : Int) :
    alistHas t k = (alistGet t k).isSome := by
  induction t with
  | nil => rfl
  | cons p rest ih =>
      obtain ⟨k', v'⟩ := p
      by_cases h : k' = k
      · simp [alistHas, alistGet, h]
      · simp [alistHas, alistGet, h, ih]

theorem get_triage_upsert (db : DB) (now : Int) (number : Int) (sid : String)
    (surl : Option String) (so sess : Option Json) :
    get_triage (upsert_triage db now number sid surl so sess) number =
      some ⟨number, now, sid, surl, dumpsIfTruthy so, dumpsIfTruthy sess⟩ := by
  simp [get_triage, upsert_triage, alistGet_upsert]

theorem get_exec_upsert (db : DB) (now : Int) (number : Int) (sid : String)
    (surl : Option String) (so pr sess : Option Json) :
    get_exec (upsert_exec db now number sid surl so pr sess) number =
      some ⟨number, now, sid, surl, dumpsIfTruthy so, pr, dumpsIfTruthy sess⟩ := by
  simp [get_exec, upsert_exec, alistGet_upsert]

theorem get_verify_upsert (db : DB) (now : Int) (number : Int) (sid : String)
    (surl : Option String) (so sess : Option Json) :
    get_verify (upsert_verify db now number sid surl so sess) number =
      some ⟨number, now, sid, surl, dumpsIfTruthy so, dumpsIfTruthy sess⟩ := by
  simp [get_verify, upsert_verify, alistGet_upsert]

/-- C1: the record store is supposed to keep one table per stage with get and
upsert operations for all three, but `store.init_db` creates no verify table
and `store.py` defines neither `get_verify` nor `upsert_verify`, even though
`main.py` imports both from it. -/
theorem store_verify_missing :
    "verify_runs" ∉ init_db_tables ∧
    "get_verify" ∈ main_store_imports ∧ "get_verify" ∉ store_module_defs ∧
    "upsert_verify" ∈ main_store_imports ∧ "upsert_verify" ∉ store_module_defs := by
  decide

/-- C2: against a remote answering 429 three times with a Retry-After of 5,
create_session sleeps 5 seconds exactly twice, makes exactly 3 HTTP attempts,
and fails rate-limited with retry_after_s 5; with no Retry-After header the
sleeps follow the exponential schedule 2 then 4. -/
theorem create_session_rate_limit_backoff
    (respA respB : Nat → HttpResp)
    (hA : ∀ i, i < 3 → (respA i).status = 429 ∧ (respA i).retryAfter = some "5")
    (hB : ∀ i, i < 3 → (respB i).status = 429 ∧ (respB i).retryAfter = none) :
    create_session respA = ⟨.rateLimited 5, [5, 5], 3⟩ ∧
    (create_session respB).sleeps = [2, 4] := by
  obtain ⟨ha0, ha0h⟩ := hA 0 (by norm_num)
  obtain ⟨ha1, ha1h⟩ := hA 1 (by norm_num)
  obtain ⟨ha2, ha2h⟩ := hA 2 (by norm_num)
  obtain ⟨hb0, hb0h⟩ := hB 0 (by norm_num)
  obtain ⟨hb1, hb1h⟩ := hB 1 (by norm_num)
  obtain ⟨hb2, hb2h⟩ := hB 2 (by norm_num)
  have hp : parseRetryAfter (some "5") = some 5 := by decide
  constructor
  · simp [create_session, createGo, ha0, ha0h, ha1, ha1h, ha2, ha2h, hp]
  · simp [create_session, createGo, hb0, hb0h, hb1, hb1h, hb2, hb2h, parseRetryAfter]

/-- C2 witness: concrete mocks instantiating the backoff theorem. -/
theorem create_session_rate_limit_backoff_witness :
    create_session (fun _ => ⟨429, some "5", .null⟩) = ⟨.rateLimited 5, [5, 5], 3⟩ ∧
    (create_session (fun _ => ⟨429, none, .null⟩)).sleeps = [2, 4] :=
  create_session_rate_limit_backoff _ _ (fun _ _ => ⟨rfl, rfl⟩) (fun _ _ => ⟨rfl, rfl⟩)

/-- C3: a Triage record with non-empty structured output, and an Execute record
with a pull-request URL in its column or inside its structured output, are
returned as cache hits under force=false with no session-creation call. -/
theorem stage_cache_hit_no_session_creation :
    (∀ now start db number (r : TriageRecord) (so : Json),
      get_triage db number = some r → r.structured_output = some so →
      so.truthy = true →
      triage_issue now start db number false = (.ok ⟨true, r⟩, db, 0)) ∧
    (∀ now ts es db number (r : ExecRecord),
      get_exec db number = some r →
      (optTruthy r.pull_request_url = true ∨
        optTruthy ((pyOrEmptyObj r.structured_output).get "pull_request_url") = true) →
      execute_issue now ts es db number false = (.ok ⟨true, r⟩, db, ⟨0, 0, 0⟩)) := by
  constructor
  · intro now start db number r so hget hso htr
    simp [triage_issue, hget, hso, optTruthy, htr]
  · intro now ts es db number r hget hpr
    have hcond : optTruthy (pyOr r.pull_request_url
        ((pyOrEmptyObj r.structured_output).get "pull_request_url")) = true := by
      rcases hpr with h | h
      · simp [pyOr, h]
      · by_cases h0 : optTruthy r.pull_request_url
        · simp [pyOr, h0]
        · simp [pyOr, h0, h]
    simp [execute_issue, hget, hcond]

/-- C3 witness: concrete cache hits for both stages. -/
theorem stage_cache_hit_no_session_creation_witness :
    triage_issue 0 (.ok "x" none) ⟨[(5, ⟨5, 0, "t5", none, some (.obj [("k", .str "v")]), none⟩)], [], []⟩ 5 false =
      (.ok ⟨true, ⟨5, 0, "t5", none, some (.obj [("k", .str "v")]), none⟩⟩,
        ⟨[(5, ⟨5, 0, "t5", none, some (.obj [("k", .str "v")]), none⟩)], [], []⟩, 0) ∧
    execute_issue 0 (.ok "x" none) (.ok "y" none)
        ⟨[], [(6, ⟨6, 0, "e6", none, none, some (.str "https://example.test/pull/2"), none⟩)], []⟩ 6 false =
      (.ok ⟨true, ⟨6, 0, "e6", none, none, some (.str "https://example.test/pull/2"), none⟩⟩,
        ⟨[], [(6, ⟨6, 0, "e6", none, none, some (.str "https://example.test/pull/2"), none⟩)], []⟩, ⟨0, 0, 0⟩) :=
  ⟨stage_cache_hit_no_session_creation.1 0 (.ok "x" none) _ 5 _ _ rfl rfl rfl,
   stage_cache_hit_no_session_creation.2 0 (.ok "x" none) (.ok "y" none) _ 6 _ rfl (Or.inl rfl)⟩

/-- C9: upserting an empty-object structured output persists NULL, so the
subsequent get reads it back as absent; in particular the fresh record a
triage run persists (structured output set to the empty object) reads back
with structured_output absent. -/
theorem empty_structured_output_persists_null
    (db : DB) (now : Int) (number : Int) (sid : String) (surl : Option String)
    (sess pr : Option Json) (url : Option String) :
    (get_triage (upsert_triage db now number sid surl (some (.obj [])) sess) number).map
        TriageRecord.structured_output = some none ∧
    (get_exec (upsert_exec db now number sid surl (some (.obj [])) pr sess) number).map
        ExecRecord.structured_output = some none ∧
    (exceptValue (triage_issue now (.ok sid url) ⟨[], [], []⟩ number false).1).map
        (fun resp => resp.record.structured_output) = some none := by
  refine ⟨?_, ?_, ?_⟩
  · simp [get_triage_upsert, dumpsIfTruthy, optTruthy, Json.truthy]
  · simp [get_exec_upsert, dumpsIfTruthy, optTruthy, Json.truthy]
  · simp [triage_issue, get_triage, alistGet, triageFresh, get_triage_upsert,
      exceptValue, dumpsIfTruthy, optTruthy, Json.truthy]

/-- C6: any existing Verify record is a cache hit under force=false, returned
unchanged with no remote call, regardless of its structured output. -/
theorem verify_cache_hit_any_record
    (now : Int) (start : SessionStart) (db : DB) (number : Int) (r : VerifyRecord)
    (hget : get_verify db number = some r) :
    verify_pr now start db number false = (.ok ⟨true, r⟩, db, 0) := by
  simp [verify_pr, hget]

/-- C6 witness: a never-completed verify record still cache-hits. -/
theorem verify_cache_hit_any_record_witness :
    verify_pr 0 (.ok "x" none) verifyDB0 3 false =
      (.ok ⟨true, ⟨3, 0, "v3", none, none, none⟩⟩, verifyDB0, 0) :=
  verify_cache_hit_any_record 0 (.ok "x" none) verifyDB0 3 _ rfl

/-- C4 counterexample: an issue with no triage structured output but a cached
Execute pull-request URL makes Run Execute (force=false) cache-hit and perform
zero internal triage runs, not exactly one as the claim states. -/
theorem exec_dependency_cached_counterexample :
    optTruthy (triageSO dbExecCached 7) = false ∧
    (execute_issue 0 (.ok "t" none) (.ok "e" none) dbExecCached 7
        false).2.2.internalTriageRuns = 0 :=
  ⟨rfl, rfl⟩

/-- C4 (amended): when no triage structured output is available and the Execute
cache-hit condition does not hold, Run Execute performs exactly one internal
triage run (force=false) and creates no Execute session; when the internal
run's session creation succeeds, its fresh record reads back with absent
structured output, so Execute fails with the 400 "no triage found" error. -/
theorem exec_dependency_chain
    (now : Int) (ts es : SessionStart) (db : DB) (number : Int)
    (hso : optTruthy (triageSO db number) = false)
    (hmiss : ∀ r : ExecRecord, get_exec db number = some r →
      optTruthy (pyOr r.pull_request_url
        ((pyOrEmptyObj r.structured_output).get "pull_request_url")) = false) :
    (execute_issue now ts es db number false).2.2.internalTriageRuns = 1 ∧
    (execute_issue now ts es db number false).2.2.execCreates = 0 ∧
    (∀ sid url, ts = .ok sid url →
      (execute_issue now ts es db number false).1 = .error (.http 400 noTriageMsg)) := by
  have hfresh : execute_issue now ts es db number false = executeFresh now ts es db number := by
    unfold execute_issue
    cases hget : get_exec db number with
    | none => rfl
    | some r => simp [hmiss r hget]
  have htr : triage_issue now ts db number false = triageFresh now ts db number := by
    unfold triage_issue
    cases hgt : get_triage db number with
    | none => rfl
    | some existing =>
        have : optTruthy existing.structured_output = false := by
          have : triageSO db number = existing.structured_output := by
            simp [triageSO, hgt]
          rwa [this] at hso
        simp [this]
  rw [hfresh]
  unfold executeFresh
  rw [htr]
  cases ts with
  | rateLimited r => simp [triageFresh, hso]
  | remoteError s => simp [triageFresh, hso]
  | ok sid url =>
      have hd : dumpsIfTruthy (some (Json.obj [])) = none := rfl
      have hn : optTruthy none = false := rfl
      simp [triageFresh, hso, get_triage_upsert, hd, hn]

/-- C4 witness: the amended dependency-chain theorem at an empty store. -/
theorem exec_dependency_chain_witness :
    (execute_issue 0 (.ok "sid" none) (.ok "e" none) ⟨[], [], []⟩ 7
        false).2.2.internalTriageRuns = 1 ∧
    (execute_issue 0 (.ok "sid" none) (.ok "e" none) ⟨[], [], []⟩ 7
        false).2.2.execCreates = 0 ∧
    (execute_issue 0 (.ok "sid" none) (.ok "e" none) ⟨[], [], []⟩ 7 false).1 =
      .error (.http 400 noTriageMsg) := by
  have h := exec_dependency_chain 0 (.ok "sid" none) (.ok "e" none) ⟨[], [], []⟩ 7
    rfl (fun r hr => by simp [get_exec, alistGet] at hr)
  exact ⟨h.1, h.2.1, h.2.2 "sid" none rfl⟩

theorem sync_exec_spec (now : Int) (fetch : String → Dict) (db : DB) (number : Int)
    (rec : ExecRecord) (hget : get_exec db number = some rec)
    (hsid : ¬rec.session_id = "") :
    sync_exec_with_session now fetch db number =
      (.ok ⟨number, now, rec.session_id, rec.session_url,
        dumpsIfTruthy (some (pyOrEmptyObj (dictGet (fetch rec.session_id) "structured_output"))),
        prFromSnapshot (fetch rec.session_id),
        dumpsIfTruthy (some (.obj (fetch rec.session_id)))⟩,
       upsert_exec db now number rec.session_id rec.session_url
         (some (pyOrEmptyObj (dictGet (fetch rec.session_id) "structured_output")))
         (prFromSnapshot (fetch rec.session_id))
         (some (.obj (fetch rec.session_id)))) := by
  simp only [sync_exec_with_session, hget, if_neg hsid, get_exec_upsert, prFromSnapshot]

theorem sync_exec_spec_fst (now : Int) (fetch : String → Dict) (db : DB) (number : Int)
    (rec : ExecRecord) (hget : get_exec db number = some rec)
    (hsid : ¬rec.session_id = "") :
    (sync_exec_with_session now fetch db number).1 =
      .ok ⟨number, now, rec.session_id, rec.session_url,
        dumpsIfTruthy (some (pyOrEmptyObj (dictGet (fetch rec.session_id) "structured_output"))),
        prFromSnapshot (fetch rec.session_id),
        dumpsIfTruthy (some (.obj (fetch rec.session_id)))⟩ := by
  rw [sync_exec_spec now fetch db number rec hget hsid]

theorem sync_exec_spec_snd (now : Int) (fetch : String → Dict) (db : DB) (number : Int)
    (rec : ExecRecord) (hget : get_exec db number = some rec)
    (hsid : ¬rec.session_id = "") :
    (sync_exec_with_session now fetch db number).2 =
      upsert_exec db now number rec.session_id rec.session_url
        (some (pyOrEmptyObj (dictGet (fetch rec.session_id) "structured_output")))
        (prFromSnapshot (fetch rec.session_id))
        (some (.obj (fetch rec.session_id))) := by
  rw [sync_exec_spec now fetch db number rec hget hsid]

theorem sync_triage_spec (now : Int) (fetch : String → Dict) (db : DB) (number : Int)
    (rec : TriageRecord) (hget : get_triage db number = some rec)
    (hsid : ¬rec.session_id = "") :
    sync_triage_with_session now fetch db number =
      (.ok ⟨number, now, rec.session_id, rec.session_url,
        dumpsIfTruthy (some (pyOrEmptyObj (dictGet (fetch rec.session_id) "structured_output"))),
        dumpsIfTruthy (some (.obj (fetch rec.session_id)))⟩,
       upsert_triage db now number rec.session_id rec.session_url
         (some (pyOrEmptyObj (dictGet (fetch rec.session_id) "structured_output")))
         (some (.obj (fetch rec.session_id)))) := by
  simp only [sync_triage_with_session, hget, if_neg hsid, get_triage_upsert]

theorem sync_verify_spec (now : Int) (fetch : String → Dict) (db : DB) (number : Int)
    (rec : VerifyRecord) (hget : get_verify db number = some rec)
    (hsid : ¬rec.session_id = "") :
    sync_verify_with_session now fetch db number =
      (.ok ⟨number, now, rec.session_id, rec.session_url,
        dumpsIfTruthy (some (pyOrEmptyObj (dictGet (fetch rec.session_id) "structured_output"))),
        dumpsIfTruthy (some (.obj (fetch rec.session_id)))⟩,
       upsert_verify db now number rec.session_id rec.session_url
         (some (pyOrEmptyObj (dictGet (fetch rec.session_id) "structured_output")))
         (some (.obj (fetch rec.session_id)))) := by
  simp only [sync_verify_with_session, hget, if_neg hsid, get_verify_upsert]

/-- C5 counterexample: against an unchanged remote snapshot, the second sync
writes a new created_at (the time of the second write), so the stored record
is not byte-for-byte identical to the first reconciliation. -/
theorem sync_exec_created_at_counterexample :
    (exceptValue (sync_exec_with_session 0 syncFetch0 syncDB0 1).1).map
        ExecRecord.created_at = some 0 ∧
    (exceptValue (sync_exec_with_session 1 syncFetch0
        (sync_exec_with_session 0 syncFetch0 syncDB0 1).2 1).1).map
        ExecRecord.created_at = some 1 ∧
    (sync_exec_with_session 1 syncFetch0
        (sync_exec_with_session 0 syncFetch0 syncDB0 1).2 1).1 ≠
      (sync_exec_with_session 0 syncFetch0 syncDB0 1).1 := by
  refine ⟨rfl, rfl, ?_⟩
  intro h
  have h2 : (some (1 : Int)) = some 0 :=
    congrArg (fun x => (exceptValue x).map ExecRecord.created_at) h
  exact absurd (Option.some.inj h2) (by norm_num)

/-- C5 (amended): re-syncing an execute record against an unchanged remote
snapshot reproduces the first reconciliation's stored record in every
persisted field except created_at, which becomes the second write time. -/
theorem sync_exec_idempotent_mod_created_at
    (t1 t2 : Int) (fetch : String → Dict) (db : DB) (number : Int)
    (rec : ExecRecord) (hget : get_exec db number = some rec)
    (hsid : ¬rec.session_id = "") (r1 : ExecRecord)
    (h1 : (sync_exec_with_session t1 fetch db number).1 = .ok r1) :
    (sync_exec_with_session t2 fetch
        (sync_exec_with_session t1 fetch db number).2 number).1 =
      .ok ⟨r1.issue_number, t2, r1.session_id, r1.session_url,
        r1.structured_output, r1.pull_request_url, r1.session⟩ := by
  have h1' : r1 = ⟨number, t1, rec.session_id, rec.session_url,
      dumpsIfTruthy (some (pyOrEmptyObj (dictGet (fetch rec.session_id) "structured_output"))),
      prFromSnapshot (fetch rec.session_id),
      dumpsIfTruthy (some (.obj (fetch rec.session_id)))⟩ := by
    rw [sync_exec_spec_fst t1 fetch db number rec hget hsid] at h1
    exact (Except.ok.inj h1).symm
  subst h1'
  rw [sync_exec_spec_snd t1 fetch db number rec hget hsid]
  rw [sync_exec_spec_fst t2 fetch _ number _
    (get_exec_upsert db t1 number rec.session_id rec.session_url
      (some (pyOrEmptyObj (dictGet (fetch rec.session_id) "structured_output")))
      (prFromSnapshot (fetch rec.session_id))
      (some (.obj (fetch rec.session_id)))) hsid]

/-- C5 witness: the idempotence-mod-created_at theorem at a concrete store. -/
theorem sync_exec_idempotent_mod_created_at_witness :
    (sync_exec_with_session 1 syncFetch0
        (sync_exec_with_session 0 syncFetch0 syncDB0 1).2 1).1 =
      .ok ⟨1, 1, "s1", none, none, none, none⟩ :=
  sync_exec_idempotent_mod_created_at 0 1 syncFetch0 syncDB0 1
    ⟨1, 0, "s1", none, none, none, none⟩ rfl (by decide)
    ⟨1, 0, "s1", none, none, none, none⟩ rfl

/-- C7 counterexample: a sync also overwrites created_at, which is not one of
the derived fields: a triage record written at time 0 has created_at 5 after
a sync at time 5. -/
theorem sync_changes_created_at_counterexample :
    (get_triage triageDB0 2).map TriageRecord.created_at = some 0 ∧
    (get_triage (sync_triage_with_session 5 syncFetch0 triageDB0 2).2 2).map
        TriageRecord.created_at = some 5 :=
  ⟨rfl, rfl⟩

/-- C7 (amended): every sync (triage, execute, verify) preserves session_id and
session_url, and keeps the record under its issue number; beyond the derived
fields only created_at changes, set to the sync's write time. -/
theorem sync_preserves_session_identity :
    (∀ now fetch db number (rec : TriageRecord) r',
      get_triage db number = some rec → ¬rec.session_id = "" →
      (sync_triage_with_session now fetch db number).1 = .ok r' →
      r'.session_id = rec.session_id ∧ r'.session_url = rec.session_url ∧
      r'.issue_number = number ∧ r'.created_at = now) ∧
    (∀ now fetch db number (rec : ExecRecord) r',
      get_exec db number = some rec → ¬rec.session_id = "" →
      (sync_exec_with_session now fetch db number).1 = .ok r' →
      r'.session_id = rec.session_id ∧ r'.session_url = rec.session_url ∧
      r'.issue_number = number ∧ r'.created_at = now) ∧
    (∀ now fetch db number (rec : VerifyRecord) r',
      get_verify db number = some rec → ¬rec.session_id = "" →
      (sync_verify_with_session now fetch db number).1 = .ok r' →
      r'.session_id = rec.session_id ∧ r'.session_url = rec.session_url ∧
      r'.issue_number = number ∧ r'.created_at = now) := by
  refine ⟨?_, ?_, ?_⟩ <;> intro now fetch db number rec r' hget hsid hok
  · rw [sync_triage_spec now fetch db number rec hget hsid] at hok
    obtain rfl := (Except.ok.inj hok).symm
    exact ⟨rfl, rfl, rfl, rfl⟩
  · rw [sync_exec_spec now fetch db number rec hget hsid] at hok
    obtain rfl := (Except.ok.inj hok).symm
    exact ⟨rfl, rfl, rfl, rfl⟩
  · rw [sync_verify_spec now fetch db number rec hget hsid] at hok
    obtain rfl := (Except.ok.inj hok).symm
    exact ⟨rfl, rfl, rfl, rfl⟩

/-- C7 witness: the preservation theorem at a concrete triage sync. -/
theorem sync_preserves_session_identity_witness :
    (⟨2, 5, "t2", none, none, none⟩ : TriageRecord).session_id = "t2" ∧
    (⟨2, 5, "t2", none, none, none⟩ : TriageRecord).session_url = none ∧
    (⟨2, 5, "t2", none, none, none⟩ : TriageRecord).issue_number = 2 ∧
    (⟨2, 5, "t2", none, none, none⟩ : TriageRecord).created_at = 5 :=
  sync_preserves_session_identity.1 5 syncFetch0 triageDB0 2
    ⟨2, 0, "t2", none, none, none⟩ ⟨2, 5, "t2", none, none, none⟩ rfl (by decide) rfl

/-- C10: Sync-Execute stores as pull_request_url exactly the value derived from
the freshly fetched snapshot, independent of whatever was stored before — so a
previously non-empty stored URL becomes NULL when the snapshot carries none. -/
theorem sync_exec_pr_url_from_snapshot
    (now : Int) (fetch : String → Dict) (db : DB) (number : Int)
    (rec : ExecRecord) (hget : get_exec db number = some rec)
    (hsid : ¬rec.session_id = "") :
    (get_exec (sync_exec_with_session now fetch db number).2 number).map
        ExecRecord.pull_request_url = some (prFromSnapshot (fetch rec.session_id)) := by
  rw [sync_exec_spec_snd now fetch db number rec hget hsid, get_exec_upsert]
  rfl

/-- C10 witness: a stored PR URL is overwritten with NULL when the fresh
snapshot carries none. -/
theorem sync_exec_pr_url_from_snapshot_witness :
    (get_exec (sync_exec_with_session 2 syncFetch0 prDB0 4).2 4).map
        ExecRecord.pull_request_url = some none :=
  sync_exec_pr_url_from_snapshot 2 syncFetch0 prDB0 4
    ⟨4, 0, "e4", none, none, some (.str "https://old.example/pull/9"), none⟩ rfl (by decide)

/-- C8: clear cache reports, per stage, a boolean that is true iff something
was deleted for that stage (from the in-memory dict or the persisted table),
and afterwards all three gets for the issue return absent. -/
theorem clear_cache_deletes_all_stages (memT memE : List Int) (db : DB) (number : Int) :
    ((clear_issue_cache memT memE db number).1.triage
        = ((get_triage db number).isSome || memT.contains number)) ∧
    ((clear_issue_cache memT memE db number).1.execute
        = ((get_exec db number).isSome || memE.contains number)) ∧
    ((clear_issue_cache memT memE db number).1.verify = (get_verify db number).isSome) ∧
    get_triage (clear_issue_cache memT memE db number).2.2 number = none ∧
    get_exec (clear_issue_cache memT memE db number).2.2 number = none ∧
    get_verify (clear_issue_cache memT memE db number).2.2 number = none := by
  refine ⟨?_, ?_, ?_, ?_, ?_, ?_⟩ <;>
    simp [clear_issue_cache, delete_triage, delete_exec, delete_verify,
      get_triage, get_exec, get_verify, alistGet_delete, alistHas_eq_isSome]
